import Mathlib

/-!
Shallow embedding of the ingestion and alert logic of
`src/streamlit_app.py` (a Streamlit dashboard polling a Firebase
realtime-database REST endpoint).

Modelling conventions:
* The raw JSON body is a mapping from opaque record ids to flat records.
  Only the values matter to the logic; their dict-iteration order is kept
  as a `List RawRecord`.
* Sensor values (`temp`, `hum`, `ldr`) are JSON numbers; we embed them as
  `ℚ`.  A record may lack one of these keys: `pandas.DataFrame.from_dict`
  then stores NaN in that cell, embedded as `none` (a NaN comparison with
  `<`/`>` is `False` in Python, matching the `Option` handling below).
* The `time` field goes through
  `pd.to_numeric(df["time"], errors="coerce").fillna(0).astype(int)`:
  a value is either numerically coercible (embedded by the resulting
  integer, after `astype(int)` truncation), un-coercible (NaN, filled
  with 0), or the key is absent (NaN in the `time` column, filled with 0).
  When no record at all carries a `time` key the column does not exist and
  `df["time"]` raises a `KeyError`.
* `df.sort_values("time")` sorts ascending by `time`; the tie order for
  equal keys is unspecified by the source (pandas' default quicksort is
  not stable), so the embedding fixes one concrete order via a stable
  insertion sort — no theorem below depends on the tie order.
* `df.tail(n)` keeps the last `n` rows, embedded as dropping
  `length - n` elements from the front.
* The `time_str` column is computed by the code only after truncation,
  but it is a per-row function of `time`, so the embedding attaches it
  when normalizing each record; the resulting series is the same.
* Python `//` is floor division and `%` (with a positive divisor) is a
  non-negative remainder: embedded as `Int.fdiv` and `Int.emod`.
-/

namespace EnvMonitor

/-- Configuration block of `streamlit_app.py`. -/
def TEMP_THRESHOLD : ℚ := 30

/-- Humidity threshold from the configuration block. -/
def HUM_THRESHOLD : ℚ := 75

/-- Light threshold from the configuration block. -/
def LDR_THRESHOLD : ℚ := 10

/-- Maximum number of most recent readings displayed. -/
def MAX_DISPLAY_RECORDS : Nat := 15

/-- The raw `time` field of one record, abstracted by the outcome of
`pd.to_numeric(..., errors="coerce")`: `num n` when the value coerces to
the integer `n` (after `astype(int)`), `bad` when coercion fails (NaN),
`missing` when the record has no `time` key. -/
inductive RawTime where
  | num (n : Int)
  | bad
  | missing
deriving DecidableEq

/-- One value of the raw JSON object: a flat record.  A sensor field that
is absent from the record is `none` (pandas stores NaN there). -/
structure RawRecord where
  temp : Option ℚ
  hum : Option ℚ
  ldr : Option ℚ
  time : RawTime
deriving DecidableEq

/-- Whether the record carries a `time` key at all (decides whether the
`time` column exists in the DataFrame). -/
def hasTimeKey (r : RawRecord) : Bool :=
  match r.time with
  | RawTime.missing => false
  | _ => true

/-- Line 31: `pd.to_numeric(df["time"], errors="coerce").fillna(0).astype(int)`.
Coercion failure and an absent key both become NaN and are filled with 0. -/
def coerceTime : RawTime → Int
  | RawTime.num n => n
  | RawTime.bad => 0
  | RawTime.missing => 0

/-- Two-digit zero padding, Python `f"{n:02d}"`.  For `0 ≤ n < 10` a `"0"`
is prepended; otherwise (including negatives) the plain decimal form
already has width ≥ 2. -/
def fmt02 (n : Int) : String :=
  if 0 ≤ n ∧ n < 10 then "0" ++ toString n else toString n

/-- Lines 36–38: the lambda turning a millisecond count into `HH:MM:SS`,
`f"{int(ms//3600000):02d}:{int((ms%3600000)//60000):02d}:{int((ms%60000)//1000):02d}"`.
Python `//` is floor division (`Int.fdiv`) and `%` with these positive
divisors is the non-negative remainder, which is `Int`'s `%` (`emod`). -/
def msToHHMMSS (ms : Int) : String :=
  fmt02 (Int.fdiv ms 3600000) ++ ":" ++
    fmt02 (Int.fdiv (ms % 3600000) 60000) ++ ":" ++
    fmt02 (Int.fdiv (ms % 60000) 1000)

/-- One row of the normalized DataFrame returned by `fetch_data`. -/
structure NormalizedRecord where
  time : Int
  time_str : String
  temp : Option ℚ
  hum : Option ℚ
  ldr : Option ℚ
deriving DecidableEq

/-- Normalization of one raw record: coerce `time`, keep the sensor
fields, attach the `HH:MM:SS` display string. -/
def normalizeRecord (r : RawRecord) : NormalizedRecord :=
  { time := coerceTime r.time
    time_str := msToHHMMSS (coerceTime r.time)
    temp := r.temp
    hum := r.hum
    ldr := r.ldr }

/-- The sort key of `df.sort_values("time")`: ascending by `time`. -/
def byTime (a b : NormalizedRecord) : Prop :=
  a.time ≤ b.time

instance : DecidableRel byTime :=
  fun a b => inferInstanceAs (Decidable (a.time ≤ b.time))

instance : IsTotal NormalizedRecord byTime :=
  ⟨fun a b => Int.le_total a.time b.time⟩

instance : IsTrans NormalizedRecord byTime :=
  ⟨fun _ _ _ hab hbc => le_trans hab hbc⟩

/-- Line 34, `df.tail(n)`: keep only the last `n` rows. -/
def tailN (n : Nat) (l : List α) : List α :=
  l.drop (l.length - n)

/-- What one refresh tick sees from `requests.get(READ_URL)`:
either the request fails (non-2xx makes `raise_for_status` raise, and a
network failure raises inside `requests.get` itself), or a body arrives,
which is a JSON object (`some` list of records) or null/empty (`none`;
line 27 `resp.json() or {}` turns it into the empty mapping). -/
inductive FetchOutcome where
  | httpError
  | body (data : Option (List RawRecord))
deriving DecidableEq

/-- The ways `fetch_data` can raise: a `requests` exception from the
request itself (the spec's `FetchError`), or the `KeyError` from
`df["time"]` when no record carries a `time` key. -/
inductive AppError where
  | fetchError
  | keyError
deriving DecidableEq

/-- Lines 24–39, `fetch_data()`: raise on HTTP failure; null/empty body
is the empty mapping; an empty frame is returned as is; otherwise coerce
`time`, sort ascending by it, keep the last `MAX_DISPLAY_RECORDS` rows,
and attach the `time_str` column. -/
def fetch_data : FetchOutcome → Except AppError (List NormalizedRecord)
  | FetchOutcome.httpError => Except.error AppError.fetchError
  | FetchOutcome.body none => Except.ok []
  | FetchOutcome.body (some raw) =>
    if raw.isEmpty then Except.ok []
    else if raw.all (fun r => !hasTimeKey r) then Except.error AppError.keyError
    else Except.ok (tailN MAX_DISPLAY_RECORDS
      (List.insertionSort byTime (raw.map normalizeRecord)))

/-- Alert kinds of the three threshold checks. -/
inductive AlertKind where
  | TempHigh
  | HumHigh
  | LightLow
deriving DecidableEq

/-- An alert banner: its kind and the rendered message. -/
structure Alert where
  kind : AlertKind
  text : String
deriving DecidableEq

/-- Rendering of a sensor value inside an f-string (Python `str`). -/
def showVal (q : ℚ) : String :=
  toString q

/-- Line 98–99: `if latest.temp > TEMP_THRESHOLD: alerts.append(...)`.
A missing field is NaN and every NaN comparison is `False`. -/
def tempAlert (latest : NormalizedRecord) : List Alert :=
  match latest.temp with
  | some t =>
    if TEMP_THRESHOLD < t then
      [⟨AlertKind.TempHigh, "🌡️ Temperature high: " ++ showVal t ++ "°C"⟩]
    else []
  | none => []

/-- Line 100–101: the humidity check. -/
def humAlert (latest : NormalizedRecord) : List Alert :=
  match latest.hum with
  | some h =>
    if HUM_THRESHOLD < h then
      [⟨AlertKind.HumHigh, "💧 Humidity high: " ++ showVal h ++ "%"⟩]
    else []
  | none => []

/-- Line 102–103: the light check. -/
def ldrAlert (latest : NormalizedRecord) : List Alert :=
  match latest.ldr with
  | some l =>
    if l < LDR_THRESHOLD then
      [⟨AlertKind.LightLow, "🔦 Light low: " ++ showVal l ++ "%"⟩]
    else []
  | none => []

/-- Lines 96–103: the alert list built from the latest record, in the
fixed order temperature check, humidity check, light check. -/
def alertsOf (latest : NormalizedRecord) : List Alert :=
  tempAlert latest ++ humAlert latest ++ ldrAlert latest

/-- The page-level alert computation: line 43 short-circuits on an empty
frame (no alerts are computed), otherwise lines 96–103 run on
`df.iloc[-1]`, the last row. -/
def appAlerts (df : List NormalizedRecord) : List Alert :=
  match df.getLast? with
  | none => []
  | some latest => alertsOf latest

/-- The mutable world one refresh tick can see or touch: the remote
store.  A tick runs `fetch_data`, which only issues a GET, so it returns
the fetched series and leaves the store as it was. -/
structure World where
  store : FetchOutcome
deriving DecidableEq

/-- One refresh tick of the ingestion pipeline: read the store, return
the result together with the world after the tick. -/
def refreshOnce (w : World) : Except AppError (List NormalizedRecord) × World :=
  (fetch_data w.store, w)

/-- Two-digit zero padding exactly as the spec words it, on a
non-negative component value. -/
def pad2 (n : Nat) : String :=
  if n < 10 then "0" ++ toString n else toString n

/-- Modelled from the spec's words, for comparison with `msToHHMMSS`:
the display string is the three components `floor(ms/3600000)`,
`floor((ms mod 3600000)/60000)` and `floor((ms mod 60000)/1000)`, each
zero-padded to 2 digits and joined by colons. -/
def specTimeDisplay (ms : Nat) : String :=
  pad2 (ms / 3600000) ++ ":" ++ pad2 (ms % 3600000 / 60000) ++ ":" ++
    pad2 (ms % 60000 / 1000)

/-! ### Helper lemmas about `fetch_data` -/

lemma fetch_data_ok_shape (raw : List RawRecord) (s : List NormalizedRecord)
    (hok : fetch_data (FetchOutcome.body (some raw)) = Except.ok s) :
    (raw = [] ∧ s = []) ∨
      s = tailN MAX_DISPLAY_RECORDS
            (List.insertionSort byTime (raw.map normalizeRecord)) := by
  cases raw with
  | nil =>
    simp [fetch_data] at hok
    exact Or.inl ⟨rfl, hok⟩
  | cons a l =>
    by_cases h2 : (a :: l).all (fun r => !hasTimeKey r)
    · simp [fetch_data, h2] at hok
    · simp [fetch_data, h2] at hok
      exact Or.inr hok.symm

lemma sorted_of_fetch_ok (o : FetchOutcome) (s : List NormalizedRecord)
    (hok : fetch_data o = Except.ok s) : List.Sorted byTime s := by
  match o with
  | FetchOutcome.httpError => simp [fetch_data] at hok
  | FetchOutcome.body none =>
    simp [fetch_data] at hok
    rw [hok]
    exact List.sorted_nil
  | FetchOutcome.body (some raw) =>
    rcases fetch_data_ok_shape raw s hok with ⟨_, hs⟩ | hs
    · rw [hs]; exact List.sorted_nil
    · rw [hs]
      exact (List.sorted_insertionSort byTime _).sublist (List.drop_sublist _ _)

lemma mem_of_fetch_ok (raw : List RawRecord) (r : RawRecord)
    (s : List NormalizedRecord) (hr : r ∈ raw)
    (hfits : raw.length ≤ MAX_DISPLAY_RECORDS)
    (hok : fetch_data (FetchOutcome.body (some raw)) = Except.ok s) :
    normalizeRecord r ∈ s := by
  rcases fetch_data_ok_shape raw s hok with ⟨h1, _⟩ | hs
  · subst h1; cases hr
  · rw [hs]
    unfold tailN
    have hlen : (List.insertionSort byTime (raw.map normalizeRecord)).length
        = raw.length := by
      rw [List.length_insertionSort, List.length_map]
    rw [hlen]
    have hz : raw.length - MAX_DISPLAY_RECORDS = 0 := by omega
    rw [hz, List.drop_zero]
    exact ((List.perm_insertionSort byTime _).mem_iff).mpr
      (List.mem_map_of_mem _ hr)

lemma fetch_ok_subset (raw : List RawRecord) (s : List NormalizedRecord)
    (hok : fetch_data (FetchOutcome.body (some raw)) = Except.ok s) :
    ∀ nr ∈ s, ∃ r ∈ raw, nr = normalizeRecord r := by
  rcases fetch_data_ok_shape raw s hok with ⟨_, hs⟩ | hs
  · rw [hs]; intro nr h; cases h
  · rw [hs]
    intro nr h
    have h1 : nr ∈ List.insertionSort byTime (raw.map normalizeRecord) :=
      (List.drop_sublist _ _).subset h
    have h2 : nr ∈ raw.map normalizeRecord :=
      ((List.perm_insertionSort byTime _).mem_iff).mp h1
    rcases List.mem_map.mp h2 with ⟨r, hrmem, hnr⟩
    exact ⟨r, hrmem, hnr.symm⟩

lemma fmt02_natCast (k : Nat) : fmt02 (k : Int) = pad2 k := by
  unfold fmt02 pad2
  rcases Nat.lt_or_ge k 10 with h | h
  · rw [if_pos ⟨Int.ofNat_nonneg k, by exact_mod_cast h⟩, if_pos h]
    rfl
  · have h1 : ¬((0 : Int) ≤ (k : Int) ∧ (k : Int) < 10) := by
      push_neg
      intro _
      exact_mod_cast h
    rw [if_neg h1, if_neg (Nat.not_lt.mpr h)]
    rfl

/-! ### Claims -/

/-- C2: for every valid raw input on which ingestion succeeds, the length
of the resulting series is `min (number of raw records) MAX_DISPLAY_RECORDS`,
with `MAX_DISPLAY_RECORDS = 15`. -/
theorem series_length_is_min (raw : List RawRecord) (s : List NormalizedRecord)
    (hok : fetch_data (FetchOutcome.body (some raw)) = Except.ok s) :
    s.length = min raw.length MAX_DISPLAY_RECORDS ∧ MAX_DISPLAY_RECORDS = 15 := by
  refine ⟨?_, rfl⟩
  rcases fetch_data_ok_shape raw s hok with ⟨h1, hs⟩ | hs
  · subst h1; rw [hs]; simp
  · rw [hs]
    unfold tailN
    rw [List.length_drop, List.length_insertionSort, List.length_map]
    omega

/-- C2 witness: a single-record store yields a series of length
`min 1 15 = 1`. -/
theorem series_length_is_min_witness :
    ([⟨1000, "00:00:01", some 20, some 50, some 50⟩] : List NormalizedRecord).length
        = min ([(⟨some 20, some 50, some 50, RawTime.num 1000⟩ : RawRecord)]).length
            MAX_DISPLAY_RECORDS
      ∧ MAX_DISPLAY_RECORDS = 15 :=
  series_length_is_min [⟨some 20, some 50, some 50, RawTime.num 1000⟩]
    [⟨1000, "00:00:01", some 20, some 50, some 50⟩] rfl

/-- C3: whenever ingestion returns a series, it is sorted ascending by
`time`: no adjacent pair violates `time[i] ≤ time[i+1]`. -/
theorem series_sorted_by_time (o : FetchOutcome) (s : List NormalizedRecord)
    (hok : fetch_data o = Except.ok s) :
    s.Chain' (fun a b => a.time ≤ b.time) :=
  (sorted_of_fetch_ok o s hok).chain'

/-- C3 witness: a two-record store, given out of order, comes back
time-sorted. -/
theorem series_sorted_by_time_witness :
    ([⟨5, "00:00:00", some 20, some 50, some 50⟩,
      ⟨9, "00:00:00", some 21, some 51, some 51⟩] : List NormalizedRecord).Chain'
      (fun a b => a.time ≤ b.time) :=
  series_sorted_by_time
    (FetchOutcome.body (some
      [⟨some 21, some 51, some 51, RawTime.num 9⟩,
       ⟨some 20, some 50, some 50, RawTime.num 5⟩]))
    [⟨5, "00:00:00", some 20, some 50, some 50⟩,
     ⟨9, "00:00:00", some 21, some 51, some 51⟩]
    rfl

/-- C5: for every non-negative millisecond count, the display string is
the three components `floor(ms/3600000)`, `floor((ms mod 3600000)/60000)`
and `floor((ms mod 60000)/1000)`, zero-padded to 2 digits and joined by
colons; in particular `ms = 3725000` gives `"01:02:05"`. -/
theorem time_display_formula (ms : Nat) :
    msToHHMMSS (ms : Int) = specTimeDisplay ms ∧
      msToHHMMSS 3725000 = "01:02:05" := by
  constructor
  · have e1 : Int.fdiv (ms : Int) 3600000 = ((ms / 3600000 : Nat) : Int) := by
      exact_mod_cast (Int.ofNat_fdiv ms 3600000).symm
    have e2 : ((ms : Int) % 3600000) = ((ms % 3600000 : Nat) : Int) := by
      exact_mod_cast (Int.natCast_mod ms 3600000).symm
    have e3 : ((ms : Int) % 60000) = ((ms % 60000 : Nat) : Int) := by
      exact_mod_cast (Int.natCast_mod ms 60000).symm
    unfold msToHHMMSS specTimeDisplay
    rw [e1, e2, e3]
    have e4 : Int.fdiv ((ms % 3600000 : Nat) : Int) 60000
        = ((ms % 3600000 / 60000 : Nat) : Int) := by
      exact_mod_cast (Int.ofNat_fdiv (ms % 3600000) 60000).symm
    have e5 : Int.fdiv ((ms % 60000 : Nat) : Int) 1000
        = ((ms % 60000 / 1000 : Nat) : Int) := by
      exact_mod_cast (Int.ofNat_fdiv (ms % 60000) 1000).symm
    rw [e4, e5, fmt02_natCast, fmt02_natCast, fmt02_natCast]
  · rfl

/-- C6: a null body or an empty raw mapping yields an empty series with
no error, and the page computes no alerts from an empty frame. -/
theorem empty_input_empty_series_no_alerts :
    fetch_data (FetchOutcome.body none) = Except.ok [] ∧
      fetch_data (FetchOutcome.body (some [])) = Except.ok [] ∧
      appAlerts [] = [] :=
  ⟨rfl, rfl, rfl⟩

/-- C9: one refresh tick leaves the remote store unchanged, and a second
tick against the unchanged store returns the same series: ingestion is
deterministic and idempotent, with no side effect beyond the read. -/
theorem ingestion_idempotent_no_side_effects (w : World) :
    (refreshOnce w).2 = w ∧
      (refreshOnce ((refreshOnce w).2)).1 = (refreshOnce w).1 :=
  ⟨rfl, rfl⟩

/-- C1: on a non-empty series the evaluator reads only the last record;
in the fixed order temperature check, humidity check, light check it
emits TempHigh iff `last.temp > TEMP_THRESHOLD`, HumHigh iff
`last.hum > HUM_THRESHOLD`, LightLow iff `last.ldr < LDR_THRESHOLD`,
each message carrying the stated text (behind the banner icon); the
checks are independent, so between 0 and 3 alerts result. -/
theorem alerts_from_last_record
    (s : List NormalizedRecord) (latest : NormalizedRecord) (t h l : ℚ)
    (hlast : s.getLast? = some latest)
    (ht : latest.temp = some t) (hh : latest.hum = some h)
    (hl : latest.ldr = some l) :
    appAlerts s =
      (if TEMP_THRESHOLD < t then
        [⟨AlertKind.TempHigh, "🌡️ " ++ ("Temperature high: " ++ showVal t ++ "°C")⟩]
      else [])
      ++ (if HUM_THRESHOLD < h then
        [⟨AlertKind.HumHigh, "💧 " ++ ("Humidity high: " ++ showVal h ++ "%")⟩]
      else [])
      ++ (if l < LDR_THRESHOLD then
        [⟨AlertKind.LightLow, "🔦 " ++ ("Light low: " ++ showVal l ++ "%")⟩]
      else [])
    ∧ ((∃ a ∈ appAlerts s, a.kind = AlertKind.TempHigh) ↔ TEMP_THRESHOLD < t)
    ∧ ((∃ a ∈ appAlerts s, a.kind = AlertKind.HumHigh) ↔ HUM_THRESHOLD < h)
    ∧ ((∃ a ∈ appAlerts s, a.kind = AlertKind.LightLow) ↔ l < LDR_THRESHOLD)
    ∧ (appAlerts s).length ≤ 3
    ∧ ∀ s' : List NormalizedRecord, s'.getLast? = s.getLast? →
        appAlerts s' = appAlerts s := by
  have sT : ∀ x : String, "🌡️ Temperature high: " ++ x ++ "°C"
      = "🌡️ " ++ ("Temperature high: " ++ x ++ "°C") := fun x => rfl
  have sH : ∀ x : String, "💧 Humidity high: " ++ x ++ "%"
      = "💧 " ++ ("Humidity high: " ++ x ++ "%") := fun x => rfl
  have sL : ∀ x : String, "🔦 Light low: " ++ x ++ "%"
      = "🔦 " ++ ("Light low: " ++ x ++ "%") := fun x => rfl
  have happ : appAlerts s = alertsOf latest := by
    simp [appAlerts, hlast]
  have hfull : appAlerts s =
      (if TEMP_THRESHOLD < t then
        [⟨AlertKind.TempHigh, "🌡️ " ++ ("Temperature high: " ++ showVal t ++ "°C")⟩]
      else [])
      ++ (if HUM_THRESHOLD < h then
        [⟨AlertKind.HumHigh, "💧 " ++ ("Humidity high: " ++ showVal h ++ "%")⟩]
      else [])
      ++ (if l < LDR_THRESHOLD then
        [⟨AlertKind.LightLow, "🔦 " ++ ("Light low: " ++ showVal l ++ "%")⟩]
      else []) := by
    rw [happ]
    unfold alertsOf
    rw [← sT, ← sH, ← sL]
    simp [tempAlert, humAlert, ldrAlert, ht, hh, hl]
  have hdep : ∀ s' : List NormalizedRecord, s'.getLast? = s.getLast? →
      appAlerts s' = appAlerts s := by
    intro s' hs'
    simp only [appAlerts, hs']
  refine ⟨hfull, ?_, ?_, ?_, ?_, hdep⟩ <;>
    by_cases hc1 : TEMP_THRESHOLD < t <;> by_cases hc2 : HUM_THRESHOLD < h <;>
      by_cases hc3 : l < LDR_THRESHOLD <;>
        simp [hfull, hc1, hc2, hc3]

/-- C1 witness: last record `temp 25, hum 80, ldr 5` against thresholds
`30, 75, 10` yields exactly HumHigh then LightLow. -/
theorem alerts_from_last_record_witness :
    appAlerts [⟨0, "00:00:00", some 25, some 80, some 5⟩] =
      [⟨AlertKind.HumHigh, "💧 " ++ ("Humidity high: " ++ showVal 80 ++ "%")⟩,
       ⟨AlertKind.LightLow, "🔦 " ++ ("Light low: " ++ showVal 5 ++ "%")⟩] := by
  have hfull := (alerts_from_last_record
    [⟨0, "00:00:00", some 25, some 80, some 5⟩]
    ⟨0, "00:00:00", some 25, some 80, some 5⟩ 25 80 5 rfl rfl rfl rfl).1
  rw [hfull]
  norm_num [TEMP_THRESHOLD, HUM_THRESHOLD, LDR_THRESHOLD]

/-- Twenty raw records with increasing times, for the C4 witness. -/
def rawTwenty : List RawRecord :=
  (List.range 20).map (fun i => ⟨some 20, some 50, some 50, RawTime.num i⟩)

/-- C4: when the store has more than MAX_DISPLAY_RECORDS entries, the
series keeps exactly MAX_DISPLAY_RECORDS records; the dropped records
(`raw.length - MAX_DISPLAY_RECORDS` many, so 5 for 20 entries) together
with the kept ones are exactly the normalized input, and every dropped
record's time is at most every kept record's time: the chronologically
earliest are dropped, never the latest. -/
theorem overflow_drops_earliest (raw : List RawRecord) (s : List NormalizedRecord)
    (hok : fetch_data (FetchOutcome.body (some raw)) = Except.ok s)
    (hbig : MAX_DISPLAY_RECORDS < raw.length) :
    s.length = MAX_DISPLAY_RECORDS ∧
      ∃ dropped : List NormalizedRecord,
        dropped.length = raw.length - MAX_DISPLAY_RECORDS ∧
        (dropped ++ s).Perm (raw.map normalizeRecord) ∧
        ∀ d ∈ dropped, ∀ k ∈ s, d.time ≤ k.time := by
  rcases fetch_data_ok_shape raw s hok with ⟨h1, _⟩ | hs
  · subst h1
    simp at hbig
  · have hslen : (List.insertionSort byTime (raw.map normalizeRecord)).length
        = raw.length := by
      rw [List.length_insertionSort, List.length_map]
    constructor
    · rw [hs]
      unfold tailN
      rw [List.length_drop, hslen]
      omega
    · refine ⟨(List.insertionSort byTime (raw.map normalizeRecord)).take
        (raw.length - MAX_DISPLAY_RECORDS), ?_, ?_, ?_⟩
      · rw [List.length_take, hslen]
        omega
      · rw [hs]
        unfold tailN
        rw [hslen, List.take_append_drop]
        exact List.perm_insertionSort byTime _
      · intro d hd k hk
        rw [hs] at hk
        unfold tailN at hk
        rw [hslen] at hk
        have hp : List.Pairwise byTime
            ((List.insertionSort byTime (raw.map normalizeRecord)).take
                (raw.length - MAX_DISPLAY_RECORDS)
              ++ (List.insertionSort byTime (raw.map normalizeRecord)).drop
                (raw.length - MAX_DISPLAY_RECORDS)) := by
          rw [List.take_append_drop]
          exact List.sorted_insertionSort byTime _
        exact (List.pairwise_append.mp hp).2.2 d hd k hk

/-- C4 witness: with 20 stored records the series keeps 15 and 5 are
dropped, all of them no later than any kept record. -/
theorem overflow_drops_earliest_witness :
    (tailN MAX_DISPLAY_RECORDS
        (List.insertionSort byTime (rawTwenty.map normalizeRecord))).length
      = MAX_DISPLAY_RECORDS ∧
      ∃ dropped : List NormalizedRecord,
        dropped.length = rawTwenty.length - MAX_DISPLAY_RECORDS ∧
        (dropped ++ tailN MAX_DISPLAY_RECORDS
          (List.insertionSort byTime (rawTwenty.map normalizeRecord))).Perm
          (rawTwenty.map normalizeRecord) ∧
        ∀ d ∈ dropped,
          ∀ k ∈ tailN MAX_DISPLAY_RECORDS
            (List.insertionSort byTime (rawTwenty.map normalizeRecord)),
            d.time ≤ k.time :=
  overflow_drops_earliest rawTwenty _ rfl (by decide)

/-- C7: a record whose time fails numeric coercion is kept with time 0,
not rejected; when the store fits in MAX_DISPLAY_RECORDS records and the
other coerced times are non-negative, it sorts to the earliest position:
the series starts with a time-0 record carrying this record's fields. -/
theorem uncoercible_time_zero_sorts_first
    (raw : List RawRecord) (r : RawRecord) (s : List NormalizedRecord)
    (hr : r ∈ raw) (hbad : r.time = RawTime.bad)
    (hnonneg : ∀ r' ∈ raw, 0 ≤ coerceTime r'.time)
    (hfits : raw.length ≤ MAX_DISPLAY_RECORDS)
    (hok : fetch_data (FetchOutcome.body (some raw)) = Except.ok s) :
    (∃ nr ∈ s, nr.time = 0 ∧ nr.temp = r.temp ∧ nr.hum = r.hum ∧
      nr.ldr = r.ldr) ∧
      s.head?.map (fun nr => nr.time) = some 0 := by
  have hmem := mem_of_fetch_ok raw r s hr hfits hok
  have ht0 : (normalizeRecord r).time = 0 := by
    simp [normalizeRecord, hbad, coerceTime]
  refine ⟨⟨normalizeRecord r, hmem, ht0, rfl, rfl, rfl⟩, ?_⟩
  have hsorted := sorted_of_fetch_ok _ s hok
  have hsub := fetch_ok_subset raw s hok
  cases s with
  | nil => cases hmem
  | cons s0 rest =>
    have h0le : 0 ≤ s0.time := by
      rcases hsub s0 (List.mem_cons_self _ _) with ⟨r', hr', he⟩
      rw [he]
      exact hnonneg r' hr'
    have hle0 : s0.time ≤ 0 := by
      rcases List.mem_cons.mp hmem with he | hm
      · rw [← he, ht0]
      · exact ht0 ▸ List.rel_of_sorted_cons hsorted _ hm
    simp only [List.head?, Option.map_some']
    have : s0.time = 0 := le_antisymm hle0 h0le
    rw [this]

/-- C7 witness: a store of two records, one with time 7 and one whose
time fails coercion; the series starts with the bad record at time 0. -/
theorem uncoercible_time_zero_sorts_first_witness :
    (∃ nr ∈ ([⟨0, "00:00:00", some 21, some 51, some 51⟩,
              ⟨7, "00:00:00", some 20, some 50, some 50⟩] :
        List NormalizedRecord), nr.time = 0 ∧ nr.temp = some 21 ∧
        nr.hum = some 51 ∧ nr.ldr = some 51) ∧
      ([⟨0, "00:00:00", some 21, some 51, some 51⟩,
        ⟨7, "00:00:00", some 20, some 50, some 50⟩] :
        List NormalizedRecord).head?.map (fun nr => nr.time) = some 0 :=
  uncoercible_time_zero_sorts_first
    [⟨some 20, some 50, some 50, RawTime.num 7⟩,
     ⟨some 21, some 51, some 51, RawTime.bad⟩]
    ⟨some 21, some 51, some 51, RawTime.bad⟩
    [⟨0, "00:00:00", some 21, some 51, some 51⟩,
     ⟨7, "00:00:00", some 20, some 50, some 50⟩]
    (by decide) rfl (by decide) (by decide) rfl

/-- C8 counterexample: a record lacking the required `temp` field is not
rejected and causes no error: ingestion succeeds and the returned series
contains that record with `temp` absent (NaN), so ingestion does return
a series containing a record that lacked a required field. -/
theorem missing_field_record_retained :
    fetch_data (FetchOutcome.body (some
        [⟨none, some 50, some 50, RawTime.num 1000⟩]))
      = Except.ok [⟨1000, "00:00:01", none, some 50, some 50⟩] ∧
    (⟨1000, "00:00:01", none, some 50, some 50⟩ : NormalizedRecord).temp
      = none :=
  ⟨rfl, rfl⟩

/-- C8 amended: HTTP failure is the only FetchError path; there is no
MalformedDataError: a record missing `temp`, `hum` or `ldr` is retained
with that field absent, a missing or unparsable `time` becomes 0, and
the only data-shape failure is the `KeyError` raised when the input is
non-empty and no record at all carries a `time` key. -/
theorem fetch_error_and_field_tolerance (raw : List RawRecord) :
    fetch_data FetchOutcome.httpError = Except.error AppError.fetchError ∧
    (raw ≠ [] → (∀ r ∈ raw, hasTimeKey r = false) →
      fetch_data (FetchOutcome.body (some raw))
        = Except.error AppError.keyError) ∧
    ((∃ r ∈ raw, hasTimeKey r = true) →
      ∃ s, fetch_data (FetchOutcome.body (some raw)) = Except.ok s) ∧
    (∀ s, fetch_data (FetchOutcome.body (some raw)) = Except.ok s →
      raw.length ≤ MAX_DISPLAY_RECORDS → ∀ r ∈ raw,
        ∃ nr ∈ s, nr.time = coerceTime r.time ∧ nr.temp = r.temp ∧
          nr.hum = r.hum ∧ nr.ldr = r.ldr) := by
  refine ⟨rfl, ?_, ?_, ?_⟩
  · intro hne hall
    cases raw with
    | nil => exact absurd rfl hne
    | cons a l =>
      have h2 : (a :: l).all (fun r => !hasTimeKey r) = true := by
        rw [List.all_eq_true]
        intro r hrr
        rw [hall r hrr]
        rfl
      simp [fetch_data, h2]
  · rintro ⟨r, hrmem, hkey⟩
    cases raw with
    | nil => cases hrmem
    | cons a l =>
      have h2 : ¬((a :: l).all (fun r => !hasTimeKey r) = true) := by
        rw [List.all_eq_true]
        intro hforall
        have hcontra := hforall r hrmem
        rw [hkey] at hcontra
        cases hcontra
      exact ⟨_, by
        simp only [fetch_data]
        rw [if_neg (by simp), if_neg h2]⟩
  · intro s hok hfits r hrmem
    exact ⟨normalizeRecord r, mem_of_fetch_ok raw r s hrmem hfits hok,
      rfl, rfl, rfl, rfl⟩

/-- C8 witness: a one-record store with no `time` key fails with the
KeyError; a one-record store missing `temp` succeeds and retains the
record. -/
theorem fetch_error_and_field_tolerance_witness :
    fetch_data (FetchOutcome.body (some
        [⟨some 1, some 2, some 3, RawTime.missing⟩]))
      = Except.error AppError.keyError ∧
    (∃ nr ∈ ([⟨5, "00:00:00", none, some 2, some 3⟩] :
        List NormalizedRecord), nr.time = 5 ∧ nr.temp = none ∧
        nr.hum = some 2 ∧ nr.ldr = some 3) := by
  constructor
  · exact (fetch_error_and_field_tolerance
      [⟨some 1, some 2, some 3, RawTime.missing⟩]).2.1
      (by decide) (by decide)
  · have hret := (fetch_error_and_field_tolerance
      [⟨none, some 2, some 3, RawTime.num 5⟩]).2.2.2
      [⟨5, "00:00:00", none, some 2, some 3⟩] rfl (by decide)
      ⟨none, some 2, some 3, RawTime.num 5⟩ (List.mem_cons_self _ _)
    exact hret

/-- C10: a record whose time coerces to a negative integer keeps that
negative time — it is neither clamped to 0 nor rejected — and, the
series being sorted, every negative-time record appears strictly before
every record with non-negative time; so the pipeline does not enforce
non-negative millisecond counts. -/
theorem negative_time_not_clamped
    (raw : List RawRecord) (r : RawRecord) (t : Int)
    (s : List NormalizedRecord)
    (hr : r ∈ raw) (ht : r.time = RawTime.num t) (_hneg : t < 0)
    (hfits : raw.length ≤ MAX_DISPLAY_RECORDS)
    (hok : fetch_data (FetchOutcome.body (some raw)) = Except.ok s) :
    (∃ nr ∈ s, nr.time = t ∧ nr.temp = r.temp ∧ nr.hum = r.hum ∧
      nr.ldr = r.ldr) ∧
      ∀ i j : Fin s.length, (s.get i).time < 0 → 0 ≤ (s.get j).time →
        (i : Nat) < (j : Nat) := by
  have hmem := mem_of_fetch_ok raw r s hr hfits hok
  have htt : (normalizeRecord r).time = t := by
    simp [normalizeRecord, ht, coerceTime]
  refine ⟨⟨normalizeRecord r, hmem, htt, rfl, rfl, rfl⟩, ?_⟩
  intro i j hi hj
  by_contra hcon
  push_neg at hcon
  have hle : (s.get j).time ≤ (s.get i).time := by
    rcases Nat.lt_or_ge (j : Nat) (i : Nat) with hlt | hge
    · exact (sorted_of_fetch_ok _ s hok).rel_get_of_lt hlt
    · have hji : j = i := Fin.ext (le_antisymm hcon hge)
      rw [hji]
  omega

/-- C10 witness: a store with times 3 and −5; the negative-time record is
kept at time −5 and sits first. -/
theorem negative_time_not_clamped_witness :
    (∃ nr ∈ ([⟨-5, "-1:59:59", some 21, some 51, some 51⟩,
              ⟨3, "00:00:00", some 20, some 50, some 50⟩] :
        List NormalizedRecord), nr.time = -5 ∧ nr.temp = some 21 ∧
        nr.hum = some 51 ∧ nr.ldr = some 51) ∧
      ∀ i j : Fin ([⟨-5, "-1:59:59", some 21, some 51, some 51⟩,
              ⟨3, "00:00:00", some 20, some 50, some 50⟩] :
          List NormalizedRecord).length,
        (([⟨-5, "-1:59:59", some 21, some 51, some 51⟩,
           ⟨3, "00:00:00", some 20, some 50, some 50⟩] :
          List NormalizedRecord).get i).time < 0 →
        0 ≤ (([⟨-5, "-1:59:59", some 21, some 51, some 51⟩,
               ⟨3, "00:00:00", some 20, some 50, some 50⟩] :
          List NormalizedRecord).get j).time →
        (i : Nat) < (j : Nat) :=
  negative_time_not_clamped
    [⟨some 20, some 50, some 50, RawTime.num 3⟩,
     ⟨some 21, some 51, some 51, RawTime.num (-5)⟩]
    ⟨some 21, some 51, some 51, RawTime.num (-5)⟩ (-5)
    [⟨-5, "-1:59:59", some 21, some 51, some 51⟩,
     ⟨3, "00:00:00", some 20, some 50, some 50⟩]
    (by decide) rfl (by decide) (by decide) rfl

end EnvMonitor
